import Mathlib

/-!
# Verification of `src/utilities.js` (plugin-utilities)

Shallow embedding of the cached geo-temporal resolution pipeline exported by
`src/utilities.js`, together with proofs settling the frozen claims about it.

Modelling conventions:
* JS instants (`Date` values) are integers of milliseconds since the Unix
  epoch (`Int`).  A possibly-invalid JS `Date` is `Option Int`
  (`none` = "Invalid Date").
* Machine floats never carry fractions in the code paths under study
  (`parseInt` truncates), so `Int` suffices for offsets; the claim-level
  comparisons against fractional expectations are stated over `ℚ`.
* The external collaborators (the versioned cache store, the two HTTP
  providers, the moment-timezone zone database and the platform
  date-string formatter) are not part of `src/`; they are modelled from
  the spec: the cache as a key/value store whose `wrap` invokes the
  producer only on a miss and stores only successful results, the
  providers as oracle functions in an `Env` record, and a timezone as its
  offset-minutes function of the instant.
* The Gregorian calendar arithmetic (`civilFromDays` / `daysFromCivil`)
  models the platform's proleptic-Gregorian `Date` math for years
  0000-03-01 .. 9999-12-31, the only range the embedded code can see.
-/

namespace PluginUtilities

/-! ## Proleptic Gregorian calendar core -/

/-- Day number (within a 400-year era, measured from a March-1st era start)
on which March-based year `yoe` begins: `365*yoe + yoe/4 - yoe/100`. -/
def sdy (yoe : Nat) : Nat := 365 * yoe + yoe / 4 - yoe / 100

/-- Hinnant-style closed form recovering the March-based year-of-era from a
day-of-era `doe ∈ [0, 146096]`. -/
def yoeOf (doe : Nat) : Nat := (doe - doe / 1460 + doe / 36524 - doe / 146096) / 365

/-- Day number one past the end of March-based year `yoe` within its era. -/
def endy (yoe : Nat) : Nat := if yoe = 399 then 146097 else sdy (yoe + 1)

theorem yoeOf_step (d : Nat) : yoeOf d ≤ yoeOf (d + 1) ∧ yoeOf (d + 1) ≤ yoeOf d + 1 := by
  unfold yoeOf
  omega

theorem yoeOf_mono : Monotone yoeOf :=
  monotone_nat_of_le_succ (fun n => (yoeOf_step n).1)

set_option maxRecDepth 10000 in
theorem yoe_boundary : ∀ y < 400, yoeOf (sdy y) = y ∧ yoeOf (endy y - 1) = y := by
  decide

/-- The closed-form year-of-era is exactly the year whose day range contains
`doe`. -/
theorem yoe_char (doe : Nat) (h : doe < 146097) :
    yoeOf doe ≤ 399 ∧ sdy (yoeOf doe) ≤ doe ∧ doe < endy (yoeOf doe) := by
  set y := yoeOf doe with hy
  have h399 : yoeOf 146096 = 399 := ((yoe_boundary 399 (by omega)).2 : yoeOf (endy 399 - 1) = 399)
  have hy399 : y ≤ 399 := by
    have := yoeOf_mono (show doe ≤ 146096 by omega)
    omega
  refine ⟨hy399, ?_, ?_⟩
  · by_contra hlt
    push_neg at hlt
    have hy1 : 1 ≤ y := by
      by_contra h0
      push_neg at h0
      interval_cases y
      simp [sdy] at hlt
    have hend : endy (y - 1) = sdy y := by
      unfold endy
      have : ¬ (y - 1 = 399) := by omega
      simp only [this, if_false]
      congr 1
      omega
    have hmono : yoeOf doe ≤ yoeOf (endy (y - 1) - 1) := by
      apply yoeOf_mono
      omega
    have hb := (yoe_boundary (y - 1) (by omega)).2
    omega
  · by_cases h399' : y = 399
    · simp [endy, h399']
      omega
    · unfold endy
      simp only [h399', if_false]
      by_contra hge
      push_neg at hge
      have hb := (yoe_boundary (y + 1) (by omega)).1
      have hmono : yoeOf (sdy (y + 1)) ≤ yoeOf doe := yoeOf_mono hge
      omega

/-- Month lengths of the proleptic Gregorian calendar (Gregorian leap rule
written out as an arithmetic proposition). -/
def daysInMonth (y m : Nat) : Nat :=
  if m = 2 then (if (y % 4 = 0 ∧ y % 100 ≠ 0) ∨ y % 400 = 0 then 29 else 28)
  else if m = 4 ∨ m = 6 ∨ m = 9 ∨ m = 11 then 30 else 31

/-- Days since 0000-01-01 of the proleptic Gregorian date `(y, m, d)`
(valid for dates from 0000-03-01 on). -/
def daysFromCivil (y m d : Nat) : Nat :=
  let yy := if m ≤ 2 then y - 1 else y
  let mp := if 3 ≤ m then m - 3 else m + 9
  60 + (yy / 400) * 146097 + sdy (yy % 400) + (153 * mp + 2) / 5 + (d - 1)

/-- Civil date from days since 0000-01-01 (valid from day 60 = 0000-03-01 on). -/
def civilFromDays (n : Nat) : Nat × Nat × Nat :=
  let z := n - 60
  let era := z / 146097
  let doe := z % 146097
  let yoe := yoeOf doe
  let doy := doe - sdy yoe
  let mp := (5 * doy + 2) / 153
  let d := doy - (153 * mp + 2) / 5 + 1
  let m := if mp < 10 then mp + 3 else mp - 9
  let y := if m ≤ 2 then era * 400 + yoe + 1 else era * 400 + yoe
  (y, m, d)

set_option maxHeartbeats 1600000 in
theorem civil_core (era doe yoe doy mp dd m y : Nat)
    (hdoe : doe < 146097) (hera : era ≤ 24)
    (hbound : 60 + era * 146097 + doe < 3652425)
    (hyle : yoe ≤ 399) (hsd : sdy yoe ≤ doe) (hend : doe < endy yoe)
    (hdoy : doy = doe - sdy yoe)
    (hmp : mp = (5 * doy + 2) / 153)
    (hdd : dd = doy - (153 * mp + 2) / 5 + 1)
    (hm : m = if mp < 10 then mp + 3 else mp - 9)
    (hy : y = if m ≤ 2 then era * 400 + yoe + 1 else era * 400 + yoe) :
    daysFromCivil y m dd = 60 + era * 146097 + doe ∧
    1 ≤ m ∧ m ≤ 12 ∧ 1 ≤ dd ∧ dd ≤ daysInMonth y m ∧ y ≤ 9999 ∧ (3 ≤ m ∨ 1 ≤ y) := by
  have hend' : (yoe = 399 ∧ doe < 146097) ∨
      (yoe ≠ 399 ∧ doe < 365 * (yoe + 1) + (yoe + 1) / 4 - (yoe + 1) / 100) := by
    by_cases h : yoe = 399
    · exact Or.inl ⟨h, hdoe⟩
    · refine Or.inr ⟨h, ?_⟩
      simp only [endy, h, if_false, sdy] at hend
      exact hend
  clear hend
  simp only [sdy] at hsd hdoy
  subst hy
  subst hm
  simp only [daysFromCivil, daysInMonth, sdy]
  have e1 : era * 400 + yoe + 1 - 1 = era * 400 + yoe := by omega
  have e2 : (era * 400 + yoe) / 400 = era := by omega
  have e3 : (era * 400 + yoe) % 400 = yoe := by omega
  have e4 : (era * 400 + yoe + 1) % 4 = (yoe + 1) % 4 := by omega
  have e5 : (era * 400 + yoe + 1) % 100 = (yoe + 1) % 100 := by omega
  have e6 : (era * 400 + yoe + 1) % 400 = (yoe + 1) % 400 := by omega
  rcases hend' with ⟨h399, hlt⟩ | ⟨h399, hlt⟩ <;>
    split_ifs <;>
    first
    | omega
    | (simp only [e1, e2, e3]; omega)
    | (simp only [e1, e2, e3, e4, e5, e6] at *; omega)
    | (simp only [e1, e2, e3, e4, e5, e6] at *
       have e7 : (yoe + 1) / 4 = yoe / 4 ∨ ((yoe + 1) / 4 = yoe / 4 + 1 ∧ (yoe + 1) % 4 = 0) := by
         omega
       have e8 : (yoe + 1) / 100 = yoe / 100 ∨
           ((yoe + 1) / 100 = yoe / 100 + 1 ∧ (yoe + 1) % 100 = 0) := by
         omega
       rcases e7 with e7 | ⟨e7, e7m⟩ <;> rcases e8 with e8 | ⟨e8, e8m⟩ <;> omega)

/-- `civilFromDays` produces a valid calendar date and is a right inverse of
`daysFromCivil` on the supported range. -/
theorem civil_inv (n : Nat) (h60 : 60 ≤ n) (hub : n < 3652425) :
    daysFromCivil (civilFromDays n).1 (civilFromDays n).2.1 (civilFromDays n).2.2 = n ∧
    1 ≤ (civilFromDays n).2.1 ∧ (civilFromDays n).2.1 ≤ 12 ∧
    1 ≤ (civilFromDays n).2.2 ∧
    (civilFromDays n).2.2 ≤ daysInMonth (civilFromDays n).1 (civilFromDays n).2.1 ∧
    (civilFromDays n).1 ≤ 9999 ∧ (3 ≤ (civilFromDays n).2.1 ∨ 1 ≤ (civilFromDays n).1) := by
  have hchar := yoe_char ((n - 60) % 146097) (by omega)
  have hcore := civil_core ((n - 60) / 146097) ((n - 60) % 146097)
    (yoeOf ((n - 60) % 146097))
    (((n - 60) % 146097) - sdy (yoeOf ((n - 60) % 146097)))
    ((5 * (((n - 60) % 146097) - sdy (yoeOf ((n - 60) % 146097))) + 2) / 153)
    ((((n - 60) % 146097) - sdy (yoeOf ((n - 60) % 146097))) -
      (153 * ((5 * (((n - 60) % 146097) - sdy (yoeOf ((n - 60) % 146097))) + 2) / 153) + 2) / 5 + 1)
    _ _ (by omega) (by omega) (by omega) hchar.1 hchar.2.1 hchar.2.2 rfl rfl rfl rfl rfl
  have hrepr : 60 + ((n - 60) / 146097) * 146097 + (n - 60) % 146097 = n := by omega
  rw [hrepr] at hcore
  exact hcore

/-! ## Digit and string primitives -/

def digitChar (k : Nat) : Char :=
  match k with
  | 0 => '0' | 1 => '1' | 2 => '2' | 3 => '3' | 4 => '4'
  | 5 => '5' | 6 => '6' | 7 => '7' | 8 => '8' | _ => '9'

def digitVal (c : Char) : Option Nat :=
  if 48 ≤ c.toNat && c.toNat ≤ 57 then some (c.toNat - 48) else none

theorem digitVal_digitChar_mod (k : Nat) : digitVal (digitChar (k % 10)) = some (k % 10) := by
  have h : k % 10 < 10 := Nat.mod_lt _ (by norm_num)
  generalize k % 10 = r at *
  interval_cases r <;> rfl

def pad2 (n : Nat) : List Char := [digitChar (n / 10 % 10), digitChar (n % 10)]

def pad3 (n : Nat) : List Char :=
  [digitChar (n / 100 % 10), digitChar (n / 10 % 10), digitChar (n % 10)]

def pad4 (n : Nat) : List Char :=
  [digitChar (n / 1000 % 10), digitChar (n / 100 % 10), digitChar (n / 10 % 10),
   digitChar (n % 10)]

theorem recomp4 (n : Nat) (h : n ≤ 9999) :
    100 * (10 * (n / 1000 % 10) + n / 100 % 10) + (10 * (n / 10 % 10) + n % 10) = n := by
  have h1 : n / 1000 % 10 = n / 1000 := by omega
  rw [h1]
  omega

theorem recomp2 (n : Nat) (h : n ≤ 99) : 10 * (n / 10 % 10) + n % 10 = n := by
  have h1 : n / 10 % 10 = n / 10 := by omega
  rw [h1]
  omega

theorem recomp3 (n : Nat) (h : n ≤ 999) :
    100 * (n / 100 % 10) + (10 * (n / 10 % 10) + n % 10) = n := by
  have h1 : n / 100 % 10 = n / 100 := by omega
  rw [h1]
  omega

def val2 (a b : Char) : Option Nat :=
  match digitVal a, digitVal b with
  | some x, some y => some (10 * x + y)
  | _, _ => none

def val3 (a b c : Char) : Option Nat :=
  match digitVal a, val2 b c with
  | some x, some y => some (100 * x + y)
  | _, _ => none

def val4 (a b c d : Char) : Option Nat :=
  match val2 a b, val2 c d with
  | some x, some y => some (100 * x + y)
  | _, _ => none

/-! ## The two validation regexes of `utilities.js` (lines 11-12)

`dateRegex  = /^[0-9]{4}-(0[1-9]|1[0-2])-(0[1-9]|[1-2][0-9]|3[0-1]) (2[0-3]|[01][0-9]):[0-5][0-9]$/`
`fullDateRegex = /^[0-9]{4}-(0[1-9]|1[0-2])-(0[1-9]|[1-2][0-9]|3[0-1])T(2[0-3]|[01][0-9]):[0-5][0-9](:[0-9]{2}\.[0-9]{3}Z)?$/`

transcribed character class by character class into decidable matchers. -/

def isDigit (c : Char) : Bool := (digitVal c).isSome

/-- `(0[1-9]|1[0-2])` -/
def monthChars (a b : Char) : Bool :=
  (a == '0' && isDigit b && b != '0') || (a == '1' && (b == '0' || b == '1' || b == '2'))

/-- `(0[1-9]|[1-2][0-9]|3[0-1])` -/
def dayChars (a b : Char) : Bool :=
  (a == '0' && isDigit b && b != '0') || ((a == '1' || a == '2') && isDigit b) ||
    (a == '3' && (b == '0' || b == '1'))

/-- `(2[0-3]|[01][0-9])` -/
def hourChars (a b : Char) : Bool :=
  (a == '2' && (b == '0' || b == '1' || b == '2' || b == '3')) ||
    ((a == '0' || a == '1') && isDigit b)

/-- `[0-5][0-9]` -/
def minuteChars (a b : Char) : Bool :=
  (a == '0' || a == '1' || a == '2' || a == '3' || a == '4' || a == '5') && isDigit b

/-- `utilities.dateRegex` as an anchored matcher. -/
def dateRegex (s : String) : Bool :=
  match s.data with
  | [y1, y2, y3, y4, c1, a1, a2, c2, b1, b2, sp, h1, h2, c3, m1, m2] =>
    isDigit y1 && isDigit y2 && isDigit y3 && isDigit y4 && c1 == '-' &&
      monthChars a1 a2 && c2 == '-' && dayChars b1 b2 && sp == ' ' &&
      hourChars h1 h2 && c3 == ':' && minuteChars m1 m2
  | _ => false

/-- `utilities.fullDateRegex` as an anchored matcher (the optional group
`(:[0-9]{2}\.[0-9]{3}Z)?` is present iff the input has the long shape). -/
def fullDateRegex (s : String) : Bool :=
  match s.data with
  | [y1, y2, y3, y4, c1, a1, a2, c2, b1, b2, sp, h1, h2, c3, m1, m2] =>
    isDigit y1 && isDigit y2 && isDigit y3 && isDigit y4 && c1 == '-' &&
      monthChars a1 a2 && c2 == '-' && dayChars b1 b2 && sp == 'T' &&
      hourChars h1 h2 && c3 == ':' && minuteChars m1 m2
  | [y1, y2, y3, y4, c1, a1, a2, c2, b1, b2, sp, h1, h2, c3, m1, m2, c4, s1, s2, c5,
     f1, f2, f3, z] =>
    isDigit y1 && isDigit y2 && isDigit y3 && isDigit y4 && c1 == '-' &&
      monthChars a1 a2 && c2 == '-' && dayChars b1 b2 && sp == 'T' &&
      hourChars h1 h2 && c3 == ':' && minuteChars m1 m2 && c4 == ':' &&
      isDigit s1 && isDigit s2 && c5 == '.' && isDigit f1 && isDigit f2 && isDigit f3 &&
      z == 'Z'
  | _ => false

/-! ## The platform date codec (`moment.utc` parsing, `Date#toJSON`,
`Date#toString`)

These model the moment / ECMAScript `Date` machinery the code calls; that
machinery lives in `node_modules`, not in `src/`, so it is embedded as the
proleptic-Gregorian arithmetic it implements.  Instants are milliseconds
since the Unix epoch.  Dates before 0000-03-01 or after 9999-12-31 are
outside the modelled range (the validated inputs cannot produce them). -/

/-- Millisecond instant of a parsed civil datetime, with moment's validity
checks (month and day-of-month ranges, hour ≤ 23, minute ≤ 59, second ≤ 59);
an out-of-range component makes the whole date invalid (`none`). -/
def parseCivil (y mo d hh mi ss ms : Nat) : Option Int :=
  if 1 ≤ mo ∧ mo ≤ 12 ∧ 1 ≤ d ∧ d ≤ daysInMonth y mo ∧ hh ≤ 23 ∧ mi ≤ 59 ∧ ss ≤ 59 ∧
      (3 ≤ mo ∨ 1 ≤ y) then
    some (((daysFromCivil y mo d : Int) - 719528) * 86400000 + (hh : Int) * 3600000 +
      (mi : Int) * 60000 + (ss : Int) * 1000 + (ms : Int))
  else none

/-- `moment.utc(string)` restricted to the shapes that can reach it in the
embedded code: the two validated input shapes (`YYYY-MM-DD HH:mm` /
`YYYY-MM-DDTHH:mm`) and the `toJSON` output shape
(`YYYY-MM-DDTHH:mm:ss.sssZ`). -/
def momentUtcParse (s : String) : Option Int :=
  match s.data with
  | [y1, y2, y3, y4, c1, a1, a2, c2, b1, b2, sp, h1, h2, c3, m1, m2] =>
    if c1 = '-' ∧ c2 = '-' ∧ (sp = ' ' ∨ sp = 'T') ∧ c3 = ':' then
      match val4 y1 y2 y3 y4, val2 a1 a2, val2 b1 b2, val2 h1 h2, val2 m1 m2 with
      | some y, some mo, some d, some hh, some mi => parseCivil y mo d hh mi 0 0
      | _, _, _, _, _ => none
    else none
  | [y1, y2, y3, y4, c1, a1, a2, c2, b1, b2, sp, h1, h2, c3, m1, m2, c4, s1, s2, c5,
     f1, f2, f3, z] =>
    if c1 = '-' ∧ c2 = '-' ∧ sp = 'T' ∧ c3 = ':' ∧ c4 = ':' ∧ c5 = '.' ∧ z = 'Z' then
      match val4 y1 y2 y3 y4, val2 a1 a2, val2 b1 b2, val2 h1 h2, val2 m1 m2,
          val2 s1 s2, val3 f1 f2 f3 with
      | some y, some mo, some d, some hh, some mi, some ss, some ms =>
        parseCivil y mo d hh mi ss ms
      | _, _, _, _, _, _, _ => none
    else none
  | _ => none

/-- `Date#toJSON` / `toISOString`: render an instant as
`YYYY-MM-DDTHH:mm:ss.sssZ`. -/
def jsDateToJSON (i : Int) : String :=
  let n : Nat := (i / 86400000 + 719528).toNat
  let ms : Nat := (i % 86400000).toNat
  let c := civilFromDays n
  String.mk (pad4 c.1 ++ '-' :: pad2 c.2.1 ++ '-' :: pad2 c.2.2 ++ 'T' ::
    pad2 (ms / 3600000) ++ ':' :: pad2 (ms / 60000 % 60) ++ ':' :: pad2 (ms / 1000 % 60) ++
    '.' :: pad3 (ms % 1000) ++ ['Z'])

/-- Parsing a rendered instant recovers it exactly (the codec round-trip,
for instants between 0000-03-01 and 9999-12-31 inclusive). -/
theorem momentUtcParse_toJSON (i : Int)
    (hlo : -62162035200000 ≤ i) (hhi : i < 253402300800000) :
    momentUtcParse (jsDateToJSON i) = some i := by
  have hn60 : 60 ≤ (i / 86400000 + 719528).toNat := by omega
  have hnub : (i / 86400000 + 719528).toNat < 3652425 := by omega
  obtain ⟨hinv, hmo1, hmo12, hd1, hdim, hy9999, hrange⟩ :=
    civil_inv ((i / 86400000 + 719528).toNat) hn60 hnub
  have hms0 : 0 ≤ i % 86400000 := by omega
  have hmslt : i % 86400000 < 86400000 := by omega
  simp only [jsDateToJSON, pad4, pad3, pad2, List.cons_append, List.nil_append,
    momentUtcParse, val4, val3, val2, digitVal_digitChar_mod]
  have hcy : (civilFromDays ((i / 86400000 + 719528).toNat)).1 ≤ 9999 := hy9999
  have hcm : (civilFromDays ((i / 86400000 + 719528).toNat)).2.1 ≤ 12 := hmo12
  have hcd : (civilFromDays ((i / 86400000 + 719528).toNat)).2.2 ≤
      daysInMonth (civilFromDays ((i / 86400000 + 719528).toNat)).1
        (civilFromDays ((i / 86400000 + 719528).toNat)).2.1 := hdim
  have hdim99 : daysInMonth (civilFromDays ((i / 86400000 + 719528).toNat)).1
      (civilFromDays ((i / 86400000 + 719528).toNat)).2.1 ≤ 31 := by
    unfold daysInMonth
    split_ifs <;> omega
  have ry := recomp4 ((civilFromDays ((i / 86400000 + 719528).toNat)).1) hcy
  have rmo := recomp2 ((civilFromDays ((i / 86400000 + 719528).toNat)).2.1) (by omega)
  have rd := recomp2 ((civilFromDays ((i / 86400000 + 719528).toNat)).2.2) (by omega)
  have rhh := recomp2 ((i % 86400000).toNat / 3600000) (by omega)
  have rmi := recomp2 ((i % 86400000).toNat / 60000 % 60) (by omega)
  have rss := recomp2 ((i % 86400000).toNat / 1000 % 60) (by omega)
  have rms := recomp3 ((i % 86400000).toNat % 1000) (by omega)
  rw [if_pos (by decide)]
  rw [ry, rmo, rd, rhh, rmi, rss, rms]
  unfold parseCivil
  rw [if_pos ⟨hmo1, hmo12, hd1, hdim, by omega, by omega, by omega, hrange⟩]
  rw [hinv]
  have : ((i / 86400000 + 719528).toNat : Int) = i / 86400000 + 719528 := by omega
  rw [this]
  simp only [Option.some.injEq]
  omega

/-- `Date#toString` under a fixed UTC process timezone, e.g.
`Wed Mar 15 2023 10:00:00 GMT+0000 (Coordinated Universal Time)`; an invalid
`Date` stringifies to `Invalid Date`.  This is what the template literal
`${date}` produces when the outer cache key is built (line 64). -/
def weekdayName (w : Nat) : List Char :=
  (match w with
   | 0 => "Sun" | 1 => "Mon" | 2 => "Tue" | 3 => "Wed" | 4 => "Thu" | 5 => "Fri"
   | _ => "Sat").data

def monthName (m : Nat) : List Char :=
  (match m with
   | 1 => "Jan" | 2 => "Feb" | 3 => "Mar" | 4 => "Apr" | 5 => "May" | 6 => "Jun"
   | 7 => "Jul" | 8 => "Aug" | 9 => "Sep" | 10 => "Oct" | 11 => "Nov" | _ => "Dec").data

def jsDateToString : Option Int → String
  | none => "Invalid Date"
  | some i =>
    let n : Nat := (i / 86400000 + 719528).toNat
    let ms : Nat := (i % 86400000).toNat
    let c := civilFromDays n
    String.mk (weekdayName ((n + 6) % 7) ++ ' ' :: monthName c.2.1 ++ ' ' :: pad2 c.2.2 ++
      ' ' :: pad4 c.1 ++ ' ' :: pad2 (ms / 3600000) ++ ':' :: pad2 (ms / 60000 % 60) ++
      ':' :: pad2 (ms / 1000 % 60) ++ (" GMT+0000 (Coordinated Universal Time)").data)

/-! ## JS `parseInt` and `String#replace` -/

/-- Accumulate the value of the leading run of digits (stops at the first
non-digit), as JS `parseInt` does after the sign. -/
def digitsVal : List Char → Nat → Nat
  | c :: rest, acc =>
    match digitVal c with
    | some k => digitsVal rest (10 * acc + k)
    | none => acc
  | [], acc => acc

/-- JS `parseInt(s)`: optional sign, then the leading digits, truncating at
the first non-digit character (in particular at a decimal point);
`none` models `NaN` (no digit follows the sign). -/
def jsParseInt (s : String) : Option Int :=
  match s.data with
  | '+' :: c :: rest => (digitVal c).map (fun k => (digitsVal rest k : Int))
  | '-' :: c :: rest => (digitVal c).map (fun k => -(digitsVal rest k : Int))
  | c :: rest => (digitVal c).map (fun k => (digitsVal rest k : Int))
  | [] => none

def startsWith : List Char → List Char → Bool
  | _, [] => true
  | [], _ :: _ => false
  | c :: cs, p :: ps => c == p && startsWith cs ps

def replaceFirstAux (pat rep : List Char) : List Char → List Char
  | [] => []
  | c :: rest =>
    if startsWith (c :: rest) pat then rep ++ (c :: rest).drop pat.length
    else c :: replaceFirstAux pat rep rest

/-- JS `String#replace` with a (non-empty) string pattern: replaces the
first occurrence only. -/
def jsReplaceFirst (s pat rep : String) : String :=
  String.mk (replaceFirstAux pat.data rep.data s.data)

/-! ## TimezoneMath (`utilities.js` lines 151-165)

A timezone is embedded as its moment-timezone offset data: the function
giving the UTC offset in minutes in force at each instant (DST makes it
depend on the instant). -/

def Zone : Type := Int → Int

/-- `moment.tz(instant, timezoneId).format('Z')`: `±HH:mm`. -/
def formatZ (offMin : Int) : String :=
  let a := offMin.natAbs
  String.mk ((if offMin < 0 then '-' else '+') :: (pad2 (a / 60) ++ ':' :: pad2 (a % 60)))

/-- `utilities.getTimezoneOffset` (lines 151-155):
`parseInt(moment.tz(localDate, timezoneId).format('Z').replace(':', '.').replace('.3', '.5'))`.
JS `parseInt` yields `NaN` only when no digit follows the sign; the `'Z'`
format always puts two digits there (`getTimezoneOffset_eq` below computes
the value), so the `NaN` fallback `getD 0` is never taken. -/
def getTimezoneOffset (zone : Zone) (localDate : Int) : Int :=
  let offset := formatZ (zone localDate)
  (jsParseInt (jsReplaceFirst (jsReplaceFirst offset ":" ".") ".3" ".5")).getD 0

/-- `utilities.convertToUtcDate` (lines 157-160):
`moment.utc(localDate).add({h: -timezoneOffset}).toJSON()`. -/
def convertToUtcDate (zone : Zone) (localDate : Int) : String :=
  jsDateToJSON (localDate - getTimezoneOffset zone localDate * 3600000)

/-- `utilities.convertUtcToLocal` (lines 162-165):
`moment.utc(date).add({hours: localeOffset}).toJSON()` where `date` is the
`Z`-suffixed ISO string produced by `convertToUtcDate` (so `moment.tz`
anchors the offset at the parsed instant); an unparsable string gives an
invalid moment whose `toJSON()` is `null` (`none`). -/
def convertUtcToLocal (zone : Zone) (date : String) : Option String :=
  (momentUtcParse date).map (fun i => jsDateToJSON (i + getTimezoneOffset zone i * 3600000))

theorem digitChar_ne_colon (k : Nat) : (digitChar k == ':') = false := by
  rcases k with _|_|_|_|_|_|_|_|_|_|k <;> rfl

theorem digitChar_ne_dot (k : Nat) : (digitChar k == '.') = false := by
  rcases k with _|_|_|_|_|_|_|_|_|_|k <;> rfl

/-- What the digit-substitution hack plus `parseInt` actually compute: the
offset's whole-hour part, truncated toward zero — the minutes are cut off at
the decimal point (`parseInt` stops there), so `.replace('.3', '.5')` never
influences the value. -/
theorem getTimezoneOffset_eq (zone : Zone) (t : Int) (h : (zone t).natAbs < 6000) :
    getTimezoneOffset zone t =
      (if zone t < 0 then -(((zone t).natAbs / 60 : Nat) : Int)
       else (((zone t).natAbs / 60 : Nat) : Int)) := by
  have hhh : (zone t).natAbs / 60 ≤ 99 := by omega
  have hrc := recomp2 ((zone t).natAbs / 60) hhh
  have c1 : (('-' : Char) == ':') = false := rfl
  have c2 : (('+' : Char) == ':') = false := rfl
  have c3 : (('-' : Char) == '.') = false := rfl
  have c4 : (('+' : Char) == '.') = false := rfl
  have c5 : ((':' : Char) == ':') = true := rfl
  have c6 : (('.' : Char) == '.') = true := rfl
  have cd : digitVal '.' = none := rfl
  have c5v : digitVal '5' = some 5 := rfl
  unfold getTimezoneOffset formatZ jsReplaceFirst
  simp only [pad2, List.cons_append, List.nil_append]
  by_cases hm : zone t < 0 <;>
    simp only [hm, if_true, if_false, reduceIte] <;>
    simp only [replaceFirstAux, startsWith, digitChar_ne_colon, digitChar_ne_dot,
      c1, c2, c3, c4, c5, c6, Bool.false_and, Bool.and_false, Bool.true_and,
      Bool.false_eq_true, not_false_eq_true, reduceIte, List.drop] <;>
    by_cases h3 : (digitChar ((zone t).natAbs % 60 / 10 % 10) == '3') = true <;>
      simp only [h3, Bool.and_true, Bool.and_false, reduceIte, Bool.false_eq_true,
        List.drop, jsParseInt, digitsVal, digitVal_digitChar_mod, cd, c5v,
        Option.map_some', Option.getD_some, hrc, Option.some.injEq] <;>
      omega

/-! ## The resolution pipeline (`utilities.convertLocalToUtc`, lines 51-148)

The injected collaborators are modelled as follows.

* The place-search and timezone-lookup HTTP endpoints are oracles in `Env`
  (the response each request would produce), and every issued request is
  logged in a `NetReq` list.
* The injected `cache` object is not part of this repository; its `wrap`
  primitive is modelled from the spec (§4.4 CacheCoordinator): the producer
  runs only on a miss, a successful value is stored under the key, a failure
  propagates to the waiters and is NOT stored (memoizing a failure would be
  the caller's job, via a sentinel value).  `wrap` also logs each consulted
  key, so theorems can speak about which cache layers a call touched.
* Rejection values are `JsErr`: either an `Error` object or a plain string —
  the distinction JS `===` makes at line 87 and `typeof` makes at line 96. -/

structure Location where
  lat : Int
  lng : Int
deriving DecidableEq

/-- A JS rejection value: an `Error` instance carrying a message, or a plain
string (line 98 rejects with a string). -/
inductive JsErr
  | errObj (msg : String)
  | strVal (s : String)
deriving DecidableEq

/-- JS strict equality `err === lit` between a rejection value and a string
literal: an `Error` object is never `===` a string. -/
def jsStrictEqStr : JsErr → String → Bool
  | .strVal t, s => t == s
  | .errObj _, _ => false

/-- The terminal record assembled at lines 117-124.  `utc` and `local` are
`null` (`none`) and `timezoneOffset` is `NaN` (`none`) when the normalized
date was an Invalid Date.  (`local` is a Lean keyword, hence `localTime`.) -/
structure ResolvedTime where
  utc : Option String
  timezone : String
  timezoneOffset : Option Int
  localTime : Option String
  lat : Int
  lng : Int
deriving DecidableEq

/-- Values the cache can hold: a location (location layer), a resolved time
(timezone and outer layers), or a plain string (what line 96 tests for). -/
inductive CVal
  | loc (l : Location)
  | res (r : ResolvedTime)
  | str (s : String)
deriving DecidableEq

/-- `location.lat` / `location.lng` access on a non-string cached value
(a `ResolvedTime` also carries `lat`/`lng` fields, as in JS). -/
def getLatLng : CVal → Location
  | .loc l => l
  | .res r => ⟨r.lat, r.lng⟩
  | .str _ => ⟨0, 0⟩

inductive NetReq
  | place (query : String)
  | tzLookup (lat lng : Int)
deriving DecidableEq

/-- Place-search endpoint outcome: a transport failure, or a JSON body
`{status, results}` (only the coordinates of each result matter; a result
without coordinates is the same as no result, `_.get` returning undefined). -/
inductive PlaceOutcome
  | transport (msg : String)
  | payload (status : String) (results : List Location)

/-- Timezone endpoint outcome: transport failure or a JSON body with an
optional `timezoneId` (`raw` is its serialization, used in the error
message at line 113). -/
inductive TzOutcome
  | transport (msg : String)
  | payload (timezoneId : Option String) (raw : String)

structure Env where
  placeResp : String → PlaceOutcome
  tzResp : Location → TzOutcome
  zoneOfs : String → Zone

abbrev CacheSt : Type := List (String × CVal)

def lookupCache : CacheSt → String → Option CVal
  | [], _ => none
  | (k, v) :: rest, key => if k == key then some v else lookupCache rest key

instance {α β : Type} [DecidableEq α] [DecidableEq β] : DecidableEq (Except α β) :=
  fun a b =>
  match a, b with
  | .ok x, .ok y =>
    if h : x = y then isTrue (by rw [h]) else isFalse (by simp [h])
  | .error x, .error y =>
    if h : x = y then isTrue (by rw [h]) else isFalse (by simp [h])
  | .ok _, .error _ => isFalse (by simp)
  | .error _, .ok _ => isFalse (by simp)

/-- Modelled from the spec: `CacheCoordinator.wrap` (§4.4), sequential
projection.  On a hit the stored value is returned without running the
producer; on a miss the producer runs, a success is stored under the key,
a failure propagates unstored.  Alongside the result it threads the cache
state and accumulates the network requests issued and the keys consulted. -/
def wrap (st : CacheSt) (key : String)
    (produce : CacheSt → Except JsErr CVal × CacheSt × List NetReq × List String) :
    Except JsErr CVal × CacheSt × List NetReq × List String :=
  match lookupCache st key with
  | some v => (.ok v, st, [], [key])
  | none =>
    match produce st with
    | (.ok v, st2, net, acc) => (.ok v, (key, v) :: st2, net, key :: acc)
    | (.error e, st2, net, acc) => (.error e, st2, net, key :: acc)

/-- The `date` argument: a JS `Date` value, a string, or any other value. -/
inductive DateInput
  | dateVal (ms : Int)
  | strVal (s : String)
  | otherVal

/-- Line 58's validation condition:
`_.isDate(date) || (typeof date === 'string' && (date.match(dateRegex) || date.match(fullDateRegex)))`. -/
def jsValidDate : DateInput → Bool
  | .dateVal _ => true
  | .strVal s => dateRegex s || fullDateRegex s
  | .otherVal => false

/-- Line 61's normalization `moment.utc(date).toDate()`: a `Date` keeps its
instant; a string is parsed as UTC (invalid calendar dates give an Invalid
Date, `none`).  Non-date non-string inputs never reach this point. -/
def momentUtcOfInput : DateInput → Option Int
  | .dateVal ms => some ms
  | .strVal s => momentUtcParse s
  | .otherVal => none

/-- Lines 52-57: `query = city && country ? `city, country` : city`
(string truthiness = non-emptiness). -/
def queryOf (city country : String) : String :=
  if city ≠ "" ∧ country ≠ "" then city ++ ", " ++ country else city

/-- Outer cache key (line 64): `localToUtc:${date}:${query}:${version}`. -/
def outerKey (dateNorm : Option Int) (query version : String) : String :=
  "localToUtc:" ++ jsDateToString dateNorm ++ ":" ++ query ++ ":" ++ version

/-- Location cache key (line 67): `location:${query}:${version}`. -/
def locationKey (query version : String) : String :=
  "location:" ++ query ++ ":" ++ version

/-- Timezone cache key (line 100): `utc:[${lat},${lng}]:${version}`. -/
def tzKey (l : Location) (version : String) : String :=
  "utc:[" ++ toString l.lat ++ "," ++ toString l.lng ++ "]:" ++ version

/-- Lines 116-124: assemble the `ResolvedTime` record. -/
def buildResolved (zone : Zone) (dateNorm : Option Int) (tzId : String)
    (l : Location) : ResolvedTime :=
  let utc := dateNorm.map (fun msv => convertToUtcDate zone msv)
  { utc := utc
  , timezone := tzId
  , timezoneOffset := dateNorm.map (fun msv => getTimezoneOffset zone msv)
  , localTime := utc.bind (fun u => convertUtcToLocal zone u)
  , lat := l.lat
  , lng := l.lng }

/-- Everything one `convertLocalToUtc` call produced: the settled promise
value, the cache state afterwards, the network requests issued, and the
cache keys consulted (in order). -/
structure RunOut where
  result : Except JsErr CVal
  state : CacheSt
  net : List NetReq
  accessed : List String
deriving DecidableEq

/-- The producer of the location cache layer (lines 68-85): issue the place
search and extract the first result's coordinates; an absent location
rejects with `new Error(result.status)`. -/
def locProducer (env : Env) (query : String) (stL : CacheSt) :
    Except JsErr CVal × CacheSt × List NetReq × List String :=
  match env.placeResp query with
  | .transport m => (.error (.errObj m), stL, [.place query], [])
  | .payload status results =>
    match results.head? with
    | some l => (.ok (.loc l), stL, [.place query], [])
    | none => (.error (.errObj status), stL, [.place query], [])

/-- The producer of the timezone cache layer (lines 101-127): look the
coordinates up, require a `timezoneId`, and assemble the `ResolvedTime`. -/
def tzProducer (env : Env) (dateNorm : Option Int) (l : Location) (stT : CacheSt) :
    Except JsErr CVal × CacheSt × List NetReq × List String :=
  match env.tzResp l with
  | .transport m => (.error (.errObj m), stT, [.tzLookup l.lat l.lng], [])
  | .payload none raw =>
    (.error (.errObj ("No timezoneId in " ++ raw)), stT, [.tzLookup l.lat l.lng], [])
  | .payload (some tzId) _ =>
    (.ok (.res (buildResolved (env.zoneOfs tzId) dateNorm tzId l)), stT,
      [.tzLookup l.lat l.lng], [])

/-- Lines 86-92: the location-layer callback classification.  A rejection
value strictly equal (`===`) to the string `'ZERO_RESULTS'` or
`'INVALID_REQUEST'` resolves the defer with the (undefined) result;
anything else rejects. -/
def locDeferOf (rl : Except JsErr CVal) : Except JsErr (Option CVal) :=
  match rl with
  | .ok v => .ok (some v)
  | .error e =>
    if jsStrictEqStr e "ZERO_RESULTS" || jsStrictEqStr e "INVALID_REQUEST" then
      .ok none
    else
      .error e

/-- The producer of the outer cache layer (lines 64-138): run the location
layer, classify, then (unless rejected) run the timezone layer. -/
def outerProducer (env : Env) (version query : String) (dateNorm : Option Int)
    (st0 : CacheSt) : Except JsErr CVal × CacheSt × List NetReq × List String :=
  let locLayer := wrap st0 (locationKey query version) (locProducer env query)
  let stA := locLayer.2.1
  let netA := locLayer.2.2.1
  let accA := locLayer.2.2.2
  match locDeferOf locLayer.1 with
  | .error e => (.error e, stA, netA, accA)
  | .ok none =>
    -- `location` is undefined: reading `location.lat` throws
    (.error (.errObj "TypeError: Cannot read properties of undefined"), stA, netA, accA)
  | .ok (some (.str s)) =>
    -- line 96-98: a string indicates a HARD error; reject with it
    (.error (.strVal s), stA, netA, accA)
  | .ok (some v) =>
    let l := getLatLng v
    let tzLayer := wrap stA (tzKey l version) (tzProducer env dateNorm l)
    (tzLayer.1, tzLayer.2.1, netA ++ tzLayer.2.2.1, accA ++ tzLayer.2.2.2)

/-- `utilities.convertLocalToUtc(date, city, country)` (lines 51-148).
The outer `Except` is the synchronous validation throw of line 59, raised
before any cache access or network request; the `RunOut.result` is how the
returned promise settles. -/
def convertLocalToUtc (env : Env) (version : String) (st : CacheSt)
    (date : DateInput) (city country : String) : Except JsErr RunOut :=
  let query := queryOf city country
  if jsValidDate date = false then
    .error (.errObj "Date should be in format YYYY-MM-DD HH:mm or YYYY-MM-DDTHH:mm:ss.sssZ")
  else
    let dateNorm := momentUtcOfInput date
    let out := wrap st (outerKey dateNorm query version) (outerProducer env version query dateNorm)
    .ok ⟨out.1, out.2.1, out.2.2.1, out.2.2.2⟩

/-! ## Concurrent `cache.wrap` calls (dogpile prevention)

Modelled from the spec (§4.4): the injected cache store admits at most one
in-flight producer per key; a call that races on a key already being
computed attaches to the in-flight result instead of invoking the producer
again.  The model is a transition system over the store's state: `cached`
(the stored values), `inflight` (one list entry per currently running
producer), and `invocations` (how many times each key's producer has been
started). -/

structure CoordState where
  cached : String → Option CVal
  inflight : List String
  invocations : String → Nat

/-- The events of the coordinator: a call hits the cache; a call joins an
in-flight computation; a call misses and starts the producer; a producer
completes and stores its value. -/
inductive CoordStep : CoordState → CoordState → Prop
  | hit (s : CoordState) (k : String) (v : CVal) :
      s.cached k = some v → CoordStep s s
  | join (s : CoordState) (k : String) :
      k ∈ s.inflight → CoordStep s s
  | miss (s : CoordState) (k : String) :
      s.cached k = none → k ∉ s.inflight →
      CoordStep s
        { cached := s.cached
        , inflight := k :: s.inflight
        , invocations := fun q => if q = k then s.invocations k + 1 else s.invocations q }
  | complete (s : CoordState) (k : String) (v : CVal) :
      k ∈ s.inflight →
      CoordStep s
        { cached := fun q => if q = k then some v else s.cached q
        , inflight := s.inflight.erase k
        , invocations := s.invocations }

def coordInit : CoordState := ⟨fun _ => none, [], fun _ => 0⟩

inductive CoordReachable : CoordState → Prop
  | init : CoordReachable coordInit
  | step {s t : CoordState} : CoordReachable s → CoordStep s t → CoordReachable t

/-- Invariant: per key there is at most one in-flight producer, the producer
has run at most once, and it has run exactly when the key is in flight or
already stored. -/
theorem coord_invariant (st : CoordState) (h : CoordReachable st) :
    st.inflight.Nodup ∧
      ∀ k, st.invocations k ≤ 1 ∧
        (st.invocations k = 0 ↔ (k ∉ st.inflight ∧ st.cached k = none)) := by
  induction h with
  | init =>
    refine ⟨List.nodup_nil, fun k => ⟨Nat.zero_le 1, ?_⟩⟩
    simp [coordInit]
  | step hr hstep ih =>
    obtain ⟨hnd, hinv⟩ := ih
    cases hstep with
    | hit k v hc => exact ⟨hnd, hinv⟩
    | join k hk => exact ⟨hnd, hinv⟩
    | miss k hc hk =>
      refine ⟨List.nodup_cons.mpr ⟨hk, hnd⟩, fun q => ?_⟩
      have h1 := (hinv q).1
      have h2 := (hinv q).2
      simp only [List.mem_cons, not_or]
      by_cases hq : q = k
      · subst hq
        have h0 := h2.mpr ⟨hk, hc⟩
        simp only [eq_self_iff_true, if_true, not_true, false_and, iff_false]
        exact ⟨by omega, by omega⟩
      · simp only [if_neg hq]
        refine ⟨h1, ?_⟩
        rw [h2]
        constructor
        · rintro ⟨hnotin, hcq⟩
          exact ⟨⟨fun he => hq he, hnotin⟩, hcq⟩
        · rintro ⟨⟨_, hnotin⟩, hcq⟩
          exact ⟨hnotin, hcq⟩
    | complete k v hk =>
      refine ⟨hnd.erase k, fun q => ?_⟩
      have h1 := (hinv q).1
      have h2 := (hinv q).2
      by_cases hq : q = k
      · subst hq
        simp only [eq_self_iff_true, if_true]
        refine ⟨h1, fun h0 => absurd hk (h2.mp h0).1, fun hx => absurd hx.2 (by simp)⟩
      · simp only [if_neg hq]
        refine ⟨h1, ?_⟩
        rw [h2]
        constructor
        · rintro ⟨hnotin, hcq⟩
          exact ⟨fun hm => hnotin (List.mem_of_mem_erase hm), hcq⟩
        · rintro ⟨hnotin, hcq⟩
          exact ⟨fun hm => hnotin ((List.mem_erase_of_ne hq).mpr hm), hcq⟩

/-! ## `promiseTimeout` (lines 20-35)

A pending asynchronous operation is modelled by when it settles, how it
settles, and the side effects it performs upon settling; time is the
discrete event-ordering of the JS runtime.  `Promise.race` settles like
whichever of its arguments settles first (the earlier listed one on a tie).
Wrapping an operation in a timeout spawns a race but leaves the original
operation in the world: it still settles and still performs its effects. -/

structure AsyncOp (α : Type) where
  settleAt : Nat
  outcome : Except String α
  effects : List String

def timeoutPromise (α : Type) (ms : Nat) : AsyncOp α :=
  ⟨ms, .error ("Timed out in " ++ toString ms ++ "ms."), []⟩

def promiseRace {α : Type} (p q : AsyncOp α) : AsyncOp α :=
  if p.settleAt ≤ q.settleAt then p else q

/-- `utilities.promiseTimeout(ms, promise)`:
`Promise.race([promise, timeout])` where `timeout` rejects after `ms`. -/
def promiseTimeout {α : Type} (ms : Nat) (p : AsyncOp α) : AsyncOp α :=
  promiseRace p (timeoutPromise α ms)

/-- The operations left pending in the runtime after
`promiseTimeout(ms, p)` is set up: the original operation `p` (nothing
cancels it) and the timer. -/
def promiseTimeoutWorld {α : Type} (ms : Nat) (p : AsyncOp α) : List (AsyncOp α) :=
  [p, timeoutPromise α ms]

/-- The side effects the world has performed by (discrete) time `t`. -/
def effectsBy {α : Type} (ops : List (AsyncOp α)) (t : Nat) : List String :=
  (ops.filter (fun o => o.settleAt ≤ t)).flatMap (fun o => o.effects)

/-! ## Concrete environments and helpers used by the claim theorems -/

/-- A provider environment that finds a place at (42, 23) in a half-hour
zone (offset +05:30 at every instant, like Asia/Kolkata). -/
def demoEnv : Env :=
  { placeResp := fun _ => .payload "OK" [⟨42, 23⟩]
  , tzResp := fun _ => .payload (some "Asia/Kolkata") "\x7b\x22timezoneId\x22:\x22Asia/Kolkata\x22\x7d"
  , zoneOfs := fun _ => fun _ => 330 }

/-- A provider environment whose place search always answers
`status = ZERO_RESULTS` with no results. -/
def zeroEnv : Env :=
  { placeResp := fun _ => .payload "ZERO_RESULTS" []
  , tzResp := fun _ => .payload (some "Europe/Sofia") "{}"
  , zoneOfs := fun _ => fun _ => 120 }

/-- A zone that switches from UTC+2 to UTC+3 at instant 1679792400000
(2023-03-26 01:00 UTC — Europe/Sofia's 2023 spring-forward). -/
def sofiaZone : Zone := fun i => if i < 1679792400000 then 120 else 180

/-- The `timezoneOffset` field of a settled `convertLocalToUtc` call. -/
def runOffset (x : Except JsErr RunOut) : Option Int :=
  match x with
  | .ok ro =>
    match ro.result with
    | .ok (.res r) => r.timezoneOffset
    | _ => none
  | .error _ => none

/-! ## The claims -/

/-- C1: the spec claims `getTimezoneOffset` yields the offset in hours as a
decimal fraction consistent with minutes/60 (`+05:30 → 5.5`, `+09:45 → 9.75`).
The code's `parseInt` stops at the decimal point, so a `+05:30` zone yields
`5`, not `5.5`, and a `+09:45` zone yields `9`, not `9.75` (only the whole-
hour `-08:00 → -8` case agrees); the truncated value is exactly what lands
in the `timezoneOffset` field of the `ResolvedTime` produced by
`convertLocalToUtc`. -/
theorem C1_offset_is_truncated_not_fractional :
    getTimezoneOffset (fun _ => 330) 1678874400000 = 5 ∧
    ((5 : ℚ) ≠ 330 / 60) ∧
    getTimezoneOffset (fun _ => (-480)) 1678874400000 = -8 ∧
    ((-8 : ℚ) = (-480) / 60) ∧
    getTimezoneOffset (fun _ => 585) 1678874400000 = 9 ∧
    ((9 : ℚ) ≠ 585 / 60) ∧
    runOffset (convertLocalToUtc demoEnv "1.32" []
      (.strVal "2023-03-15 10:00") "Mumbai" "India") = some 5 := by
  refine ⟨by decide, by norm_num, by decide, by norm_num, by decide, by norm_num, ?_⟩
  decide

/-- C2: the spec claims a `ZERO_RESULTS` place-search failure becomes the
memoized value, with exactly one network call ever.  In the code the
producer rejects with `new Error(result.status)`, an `Error` object, and
line 87 compares it with `!==` against the *string* `'ZERO_RESULTS'`
(never equal), so the soft branch is unreachable: the failure is rejected
as hard, nothing is cached (the state stays `[]`), and a second identical
call issues a second network request instead of replaying a cached
failure. -/
theorem C2_zero_results_failure_is_not_memoized :
    convertLocalToUtc zeroEnv "1.32" [] (.strVal "2023-03-15 10:00") "Atlantis" "" =
      .ok { result := .error (.errObj "ZERO_RESULTS")
          , state := []
          , net := [.place "Atlantis"]
          , accessed :=
              ["localToUtc:Wed Mar 15 2023 10:00:00 GMT+0000 (Coordinated Universal Time):Atlantis:1.32",
               "location:Atlantis:1.32"] } ∧
    (match convertLocalToUtc zeroEnv "1.32" [] (.strVal "2023-03-15 10:00") "Atlantis" "" with
     | .ok ro =>
       convertLocalToUtc zeroEnv "1.32" ro.state (.strVal "2023-03-15 10:00") "Atlantis" ""
     | .error e => .error e) =
      .ok { result := .error (.errObj "ZERO_RESULTS")
          , state := []
          , net := [.place "Atlantis"]
          , accessed :=
              ["localToUtc:Wed Mar 15 2023 10:00:00 GMT+0000 (Coordinated Universal Time):Atlantis:1.32",
               "location:Atlantis:1.32"] } := by
  constructor
  · decide
  · decide

/-- C3: at most one in-flight producer per cache key, and at most one
producer invocation per key in any reachable state of the coordinator —
a racing second call joins the in-flight computation (the `join` step)
instead of invoking the producer again. -/
theorem C3_at_most_one_inflight_producer (st : CoordState) (h : CoordReachable st) :
    st.inflight.Nodup ∧ ∀ k, st.invocations k ≤ 1 :=
  ⟨(coord_invariant st h).1, fun k => ((coord_invariant st h).2 k).1⟩

theorem C3_at_most_one_inflight_producer_witness :
    (CoordState.mk coordInit.cached ("location:Sofia, Bulgaria:1.32" :: coordInit.inflight)
      (fun q => if q = "location:Sofia, Bulgaria:1.32"
        then coordInit.invocations "location:Sofia, Bulgaria:1.32" + 1
        else coordInit.invocations q)).inflight.Nodup :=
  (C3_at_most_one_inflight_producer _
    (CoordReachable.step CoordReachable.init
      (CoordStep.miss coordInit "location:Sofia, Bulgaria:1.32" rfl (by simp [coordInit])))).1

/-- C4 counterexample: the claim allows round-trip failure only when `t`
falls exactly at a DST transition boundary.  With the 2023 Sofia
spring-forward zone (transition instant 1679792400000) and
`t = 1679797800000` (ninety minutes later, not the boundary), the round
trip returns an instant one hour early, so the claim as stated is false. -/
theorem C4_roundtrip_fails_off_boundary :
    (1679797800000 : Int) ≠ 1679792400000 ∧
    convertUtcToLocal sofiaZone (convertToUtcDate sofiaZone 1679797800000) =
      some (jsDateToJSON 1679794200000) ∧
    convertUtcToLocal sofiaZone (convertToUtcDate sofiaZone 1679797800000) ≠
      some (jsDateToJSON 1679797800000) := by
  refine ⟨by decide, ?_, ?_⟩
  · decide
  · decide

/-- C4 amended: the round trip `convertUtcToLocal (convertToUtcDate t) = t`
holds whenever the offset the code computes at the intermediate UTC instant
equals the offset at `t` — i.e. unless a DST transition lies between the
two instants (which happens at and shortly after a transition, not only
exactly on the boundary); `t` ranges over the representable instants and
the zone's offsets are bounded by the IANA maximum (14 h = 840 min). -/
theorem C4_roundtrip_when_offset_stable (zone : Zone) (t : Int)
    (hz : ∀ s, (zone s).natAbs ≤ 840)
    (hlo : -62161675200000 ≤ t) (hhi : t < 253401940800000)
    (hsame : getTimezoneOffset zone (t - getTimezoneOffset zone t * 3600000) =
      getTimezoneOffset zone t) :
    convertUtcToLocal zone (convertToUtcDate zone t) = some (jsDateToJSON t) := by
  have hb := getTimezoneOffset_eq zone t (lt_of_le_of_lt (hz t) (by norm_num))
  have hoff : -14 ≤ getTimezoneOffset zone t ∧ getTimezoneOffset zone t ≤ 14 := by
    have := hz t
    rw [hb]
    split_ifs <;> constructor <;> omega
  clear hb
  unfold convertToUtcDate convertUtcToLocal
  rw [momentUtcParse_toJSON (t - getTimezoneOffset zone t * 3600000) (by omega) (by omega)]
  simp only [Option.map_some']
  rw [hsame]
  rw [show t - getTimezoneOffset zone t * 3600000 + getTimezoneOffset zone t * 3600000 = t by
    omega]

theorem C4_roundtrip_when_offset_stable_witness :
    convertUtcToLocal (fun _ => 120) (convertToUtcDate (fun _ => 120) 1678874400000) =
      some (jsDateToJSON 1678874400000) :=
  C4_roundtrip_when_offset_stable (fun _ => 120) 1678874400000
    (fun _ => show ((120 : Int)).natAbs ≤ 840 by decide) (by decide) (by decide) (by decide)

/-- C9: `promiseTimeout ms p` rejects with the timeout error when the timer
fires before `p` settles, and `p` is not cancelled: it stays in the world,
and every side effect of `p` is still performed once `p`'s settle time has
passed, merely unobserved by the caller that timed out. -/
theorem C9_timeout_rejects_without_cancelling {α : Type} (ms : Nat) (p : AsyncOp α)
    (h : ms < p.settleAt) :
    (promiseTimeout ms p).outcome = .error ("Timed out in " ++ toString ms ++ "ms.") ∧
    (promiseTimeout ms p).settleAt = ms ∧
    p ∈ promiseTimeoutWorld ms p ∧
    (∀ t, p.settleAt ≤ t → ∀ e, e ∈ p.effects → e ∈ effectsBy (promiseTimeoutWorld ms p) t) := by
  have hrace : promiseTimeout ms p = timeoutPromise α ms := by
    simp only [promiseTimeout, promiseRace, timeoutPromise]
    rw [if_neg (by omega)]
  refine ⟨by rw [hrace]; rfl, by rw [hrace]; rfl, List.mem_cons_self _ _, ?_⟩
  intro t ht e he
  unfold effectsBy promiseTimeoutWorld
  rw [List.mem_flatMap]
  refine ⟨p, ?_, he⟩
  rw [List.mem_filter]
  exact ⟨List.mem_cons_self _ _, by simpa using ht⟩

theorem C9_timeout_rejects_without_cancelling_witness :
    (promiseTimeout 3 (⟨5, .ok 42, ["cache populated"]⟩ : AsyncOp Nat)).outcome =
      .error "Timed out in 3ms." ∧
    "cache populated" ∈ effectsBy (promiseTimeoutWorld 3 (⟨5, .ok 42, ["cache populated"]⟩ : AsyncOp Nat)) 7 :=
  ⟨(C9_timeout_rejects_without_cancelling 3 ⟨5, .ok 42, ["cache populated"]⟩ (by decide)).1,
   (C9_timeout_rejects_without_cancelling 3 ⟨5, .ok 42, ["cache populated"]⟩ (by decide)).2.2.2
     7 (by decide) "cache populated" (by decide)⟩

/-- C10: validation is shape-only: `'2023-02-31 10:00'` (day 31 in
February) matches `dateRegex` and passes validation even though it denotes
no real calendar date (`moment.utc` normalization yields an Invalid Date),
and the call proceeds past validation into normalization and the
cache/network pipeline — the outer key embeds `Invalid Date`, all three
cache layers are consulted and both network requests are issued. -/
theorem C10_validation_is_shape_only :
    dateRegex "2023-02-31 10:00" = true ∧
    jsValidDate (.strVal "2023-02-31 10:00") = true ∧
    momentUtcParse "2023-02-31 10:00" = none ∧
    (match convertLocalToUtc demoEnv "1.32" [] (.strVal "2023-02-31 10:00") "Sofia" "Bulgaria" with
     | .ok ro => (ro.net, ro.accessed)
     | .error _ => ([], [])) =
      ([.place "Sofia, Bulgaria", .tzLookup 42 23],
       ["localToUtc:Invalid Date:Sofia, Bulgaria:1.32",
        "location:Sofia, Bulgaria:1.32",
        "utc:[42,23]:1.32"]) := by
  refine ⟨by decide, by decide, by decide, ?_⟩
  decide

/-! ## Cache-layer composition lemmas -/

theorem wrap_hit {st : CacheSt} {key : String} {f} {v : CVal}
    (h : lookupCache st key = some v) :
    wrap st key f = (.ok v, st, [], [key]) := by
  unfold wrap
  rw [h]

theorem wrap_miss_ok {st : CacheSt} {key : String} {f} {v : CVal} {st2 net acc}
    (h : lookupCache st key = none) (hp : f st = (.ok v, st2, net, acc)) :
    wrap st key f = (.ok v, (key, v) :: st2, net, key :: acc) := by
  unfold wrap
  rw [h, hp]

theorem wrap_miss_err {st : CacheSt} {key : String} {f} {e : JsErr} {st2 net acc}
    (h : lookupCache st key = none) (hp : f st = (.error e, st2, net, acc)) :
    wrap st key f = (.error e, st2, net, key :: acc) := by
  unfold wrap
  rw [h, hp]

theorem wrap_accessed_head (st : CacheSt) (key : String) (f) :
    (wrap st key f).2.2.2.head? = some key := by
  unfold wrap
  cases hlk : lookupCache st key with
  | some v => rfl
  | none =>
    rw [show f st = ((f st).1, (f st).2.1, (f st).2.2.1, (f st).2.2.2) from rfl]
    cases (f st).1 <;> rfl

theorem locationKey_ne_tzKey (q v v2 : String) (l : Location) :
    locationKey q v ≠ tzKey l v2 := by
  intro h
  have hd := congrArg (fun s => s.data.head?) h
  simp only [locationKey, tzKey, String.data_append] at hd
  exact absurd (Option.some.inj hd) (by decide)

theorem lookupCache_cons_of_ne {k key : String} (v : CVal) (st : CacheSt)
    (h : k ≠ key) : lookupCache ((k, v) :: st) key = lookupCache st key := by
  simp only [lookupCache]
  rw [if_neg (by simp [h])]

theorem lookupCache_cons_self (k : String) (v : CVal) (st : CacheSt) :
    lookupCache ((k, v) :: st) k = some v := by
  simp [lookupCache]

def charAt4 : List Char → Option Char
  | _ :: _ :: _ :: _ :: c :: _ => some c
  | _ => none

theorem outerKey_ne_locationKey (dn : Option Int) (q v q2 v2 : String) :
    outerKey dn q v ≠ locationKey q2 v2 := by
  intro h
  have hd := congrArg (fun s => charAt4 s.data) h
  have e1 : ("localToUtc:" : String).data =
      ['l', 'o', 'c', 'a', 'l', 'T', 'o', 'U', 't', 'c', ':'] := rfl
  have e2 : ("location:" : String).data =
      ['l', 'o', 'c', 'a', 't', 'i', 'o', 'n', ':'] := rfl
  simp only [outerKey, locationKey, String.data_append, e1, e2,
    List.cons_append, charAt4] at hd
  exact absurd (Option.some.inj hd) (by decide)

/-- C5: `date` is accepted only as a date value or a string matching one of
the two regexes (`jsValidDate` is exactly line 58's condition); everything
else throws the validation error synchronously — the failing result is a
plain `.error` carrying no `RunOut`, identical for every environment and
cache state (no I/O and no cache access can have occurred) — while a
shape-valid date never produces the synchronous throw. -/
theorem C5_invalid_date_fails_fast (env env2 : Env) (version : String)
    (st st2 : CacheSt) (date : DateInput) (city country : String) :
    (jsValidDate date = false →
      convertLocalToUtc env version st date city country =
        .error (.errObj "Date should be in format YYYY-MM-DD HH:mm or YYYY-MM-DDTHH:mm:ss.sssZ") ∧
      convertLocalToUtc env version st date city country =
        convertLocalToUtc env2 version st2 date city country) ∧
    (jsValidDate date = true →
      ∀ e, convertLocalToUtc env version st date city country ≠ .error e) := by
  constructor
  · intro hbad
    constructor
    · simp [convertLocalToUtc, hbad]
    · simp [convertLocalToUtc, hbad]
  · intro hgood e
    simp only [convertLocalToUtc]
    rw [if_neg (by simp [hgood])]
    exact fun hcontra => Except.noConfusion hcontra

theorem C5_invalid_date_fails_fast_witness :
    convertLocalToUtc demoEnv "1.32" [] (.strVal "2023-13-40 25:99") "Sofia" "Bulgaria" =
      .error (.errObj "Date should be in format YYYY-MM-DD HH:mm or YYYY-MM-DDTHH:mm:ss.sssZ") ∧
    convertLocalToUtc demoEnv "1.32" [] (.strVal "2023-13-40 25:99") "Sofia" "Bulgaria" =
      convertLocalToUtc zeroEnv "1.32" [("k", .str "v")] (.strVal "2023-13-40 25:99")
        "Sofia" "Bulgaria" :=
  (C5_invalid_date_fails_fast demoEnv zeroEnv "1.32" [] [("k", .str "v")]
    (.strVal "2023-13-40 25:99") "Sofia" "Bulgaria").1 (by decide)

/-- C6: hard failures are never cached.  Every place-search failure — a
transport error, or a payload whose results hold no extractable location
(line 82 then rejects with `new Error(result.status)`), whatever `status`
says: the `Error` object never compares equal to the soft strings — leaves
the cache exactly as it was and is re-raised, so a subsequent call (same
state `st`) re-attempts the place request.  A timezone lookup lacking a
`timezoneId` is re-raised storing nothing beyond the successfully resolved
location, and the second conjunct runs the subsequent call from that
post-failure state: it re-issues the timezone network request (and only
that one) and fails identically, growing the cache no further. -/
theorem C6_hard_failures_never_cached (env : Env) (version : String) (st : CacheSt)
    (date : DateInput) (city country : String)
    (hvalid : jsValidDate date = true)
    (houter : lookupCache st
      (outerKey (momentUtcOfInput date) (queryOf city country) version) = none)
    (hloc : lookupCache st (locationKey (queryOf city country) version) = none) :
    (∀ e, env.placeResp (queryOf city country) = .transport e ∨
          env.placeResp (queryOf city country) = .payload e [] →
      convertLocalToUtc env version st date city country =
        .ok { result := .error (.errObj e)
            , state := st
            , net := [.place (queryOf city country)]
            , accessed :=
                [outerKey (momentUtcOfInput date) (queryOf city country) version,
                 locationKey (queryOf city country) version] }) ∧
    (∀ l rest status raw,
      env.placeResp (queryOf city country) = .payload status (l :: rest) →
      lookupCache st (tzKey l version) = none →
      env.tzResp l = .payload none raw →
      convertLocalToUtc env version st date city country =
        .ok { result := .error (.errObj ("No timezoneId in " ++ raw))
            , state := (locationKey (queryOf city country) version, .loc l) :: st
            , net := [.place (queryOf city country), .tzLookup l.lat l.lng]
            , accessed :=
                [outerKey (momentUtcOfInput date) (queryOf city country) version,
                 locationKey (queryOf city country) version,
                 tzKey l version] } ∧
      convertLocalToUtc env version
          ((locationKey (queryOf city country) version, .loc l) :: st) date city country =
        .ok { result := .error (.errObj ("No timezoneId in " ++ raw))
            , state := (locationKey (queryOf city country) version, .loc l) :: st
            , net := [.tzLookup l.lat l.lng]
            , accessed :=
                [outerKey (momentUtcOfInput date) (queryOf city country) version,
                 locationKey (queryOf city country) version,
                 tzKey l version] }) := by
  constructor
  · intro e hcase
    have hlp : locProducer env (queryOf city country) st =
        (.error (.errObj e), st, [.place (queryOf city country)], []) := by
      rcases hcase with h | h
      · unfold locProducer
        rw [h]
      · unfold locProducer
        rw [h]
        rfl
    have hw1 := wrap_miss_err hloc hlp
    have hop : outerProducer env version (queryOf city country) (momentUtcOfInput date) st =
        (.error (.errObj e), st, [.place (queryOf city country)],
          [locationKey (queryOf city country) version]) := by
      simp only [outerProducer, hw1, locDeferOf, jsStrictEqStr, Bool.or_self,
        Bool.false_eq_true, if_false, reduceIte]
    have hw2 := wrap_miss_err houter hop
    simp [convertLocalToUtc, hvalid, hw2]
  · intro l rest status raw hplace htzlk htz
    have hlp : locProducer env (queryOf city country) st =
        (.ok (.loc l), st, [.place (queryOf city country)], []) := by
      unfold locProducer
      rw [hplace]
      rfl
    have hw1 := wrap_miss_ok hloc hlp
    have htzlk2 : lookupCache ((locationKey (queryOf city country) version, CVal.loc l) :: st)
        (tzKey l version) = none := by
      rw [lookupCache_cons_of_ne _ _ (locationKey_ne_tzKey _ _ _ _)]
      exact htzlk
    have htp : tzProducer env (momentUtcOfInput date) l
        ((locationKey (queryOf city country) version, CVal.loc l) :: st) =
        (.error (.errObj ("No timezoneId in " ++ raw)),
          (locationKey (queryOf city country) version, CVal.loc l) :: st,
          [.tzLookup l.lat l.lng], []) := by
      unfold tzProducer
      rw [htz]
    have hw2 := wrap_miss_err htzlk2 htp
    have hop : outerProducer env version (queryOf city country) (momentUtcOfInput date) st =
        (.error (.errObj ("No timezoneId in " ++ raw)),
          (locationKey (queryOf city country) version, CVal.loc l) :: st,
          [.place (queryOf city country), .tzLookup l.lat l.lng],
          [locationKey (queryOf city country) version, tzKey l version]) := by
      simp only [outerProducer, hw1, locDeferOf, getLatLng, hw2]
      rfl
    have hw3 := wrap_miss_err houter hop
    have houter2 : lookupCache
        ((locationKey (queryOf city country) version, CVal.loc l) :: st)
        (outerKey (momentUtcOfInput date) (queryOf city country) version) = none := by
      rw [lookupCache_cons_of_ne _ _ (Ne.symm (outerKey_ne_locationKey _ _ _ _ _))]
      exact houter
    have hhit : lookupCache ((locationKey (queryOf city country) version, CVal.loc l) :: st)
        (locationKey (queryOf city country) version) = some (.loc l) :=
      lookupCache_cons_self _ _ _
    have hwh : wrap ((locationKey (queryOf city country) version, CVal.loc l) :: st)
        (locationKey (queryOf city country) version) (locProducer env (queryOf city country)) =
        (.ok (.loc l), (locationKey (queryOf city country) version, CVal.loc l) :: st, [],
          [locationKey (queryOf city country) version]) :=
      wrap_hit hhit
    have hop2 : outerProducer env version (queryOf city country) (momentUtcOfInput date)
        ((locationKey (queryOf city country) version, CVal.loc l) :: st) =
        (.error (.errObj ("No timezoneId in " ++ raw)),
          (locationKey (queryOf city country) version, CVal.loc l) :: st,
          [.tzLookup l.lat l.lng],
          [locationKey (queryOf city country) version, tzKey l version]) := by
      simp only [outerProducer, hwh, locDeferOf, getLatLng, hw2]
      rfl
    have hw3b := wrap_miss_err houter2 hop2
    refine ⟨?_, ?_⟩
    · simp [convertLocalToUtc, hvalid, hw3]
    · simp [convertLocalToUtc, hvalid, hw3b]

theorem C6_hard_failures_never_cached_witness :
    convertLocalToUtc
      { placeResp := fun _ => .transport "ECONNRESET"
      , tzResp := fun _ => .payload (some "Europe/Sofia") "{}"
      , zoneOfs := fun _ => fun _ => 120 } "1.32" [] (.strVal "2023-03-15 10:00") "Sofia" "" =
      .ok { result := .error (.errObj "ECONNRESET")
          , state := []
          , net := [.place "Sofia"]
          , accessed :=
              [outerKey (momentUtcOfInput (.strVal "2023-03-15 10:00")) "Sofia" "1.32",
               locationKey "Sofia" "1.32"] } :=
  (C6_hard_failures_never_cached
    { placeResp := fun _ => .transport "ECONNRESET"
    , tzResp := fun _ => .payload (some "Europe/Sofia") "{}"
    , zoneOfs := fun _ => fun _ => 120 } "1.32" [] (.strVal "2023-03-15 10:00") "Sofia" ""
    (by decide) rfl rfl).1 "ECONNRESET" (Or.inl rfl)

/-- C7 counterexample: the claim says the timezone cache layer uses keys of
the form `tz:[lat,lng]:<version>`; the code (line 100) builds
`utc:[lat,lng]:<version>`.  In a full resolution run the third key
consulted is `utc:[42,23]:1.32`, and no consulted key is the claimed
`tz:[42,23]:1.32`. -/
theorem C7_tz_layer_key_uses_utc_not_tz :
    (match convertLocalToUtc demoEnv "1.32" [] (.strVal "2023-03-15 10:00") "Mumbai" "India" with
     | .ok ro => ro.accessed
     | .error _ => []) =
      ["localToUtc:Wed Mar 15 2023 10:00:00 GMT+0000 (Coordinated Universal Time):Mumbai, India:1.32",
       "location:Mumbai, India:1.32",
       "utc:[42,23]:1.32"] ∧
    "tz:[42,23]:1.32" ∉
      (match convertLocalToUtc demoEnv "1.32" [] (.strVal "2023-03-15 10:00") "Mumbai" "India" with
       | .ok ro => ro.accessed
       | .error _ => []) := by
  constructor
  · decide
  · decide

/-- C7 amended: on a full cache-miss resolution the three layers consult, in
order, `localToUtc:<date>:<query>:<version>`, `location:<query>:<version>`
and `utc:[lat,lng]:<version>` (the timezone layer's prefix is `utc:`, not
the spec's `tz:`). -/
theorem C7_cache_key_formats (env : Env) (version : String) (st : CacheSt)
    (date : DateInput) (city country : String) (l : Location) (rest : List Location)
    (status raw tzId : String)
    (hvalid : jsValidDate date = true)
    (houter : lookupCache st
      (outerKey (momentUtcOfInput date) (queryOf city country) version) = none)
    (hloc : lookupCache st (locationKey (queryOf city country) version) = none)
    (htzlk : lookupCache st (tzKey l version) = none)
    (hplace : env.placeResp (queryOf city country) = .payload status (l :: rest))
    (htz : env.tzResp l = .payload (some tzId) raw) :
    (match convertLocalToUtc env version st date city country with
     | .ok ro => ro.accessed
     | .error _ => []) =
      ["localToUtc:" ++ jsDateToString (momentUtcOfInput date) ++ ":" ++
         queryOf city country ++ ":" ++ version,
       "location:" ++ queryOf city country ++ ":" ++ version,
       "utc:[" ++ toString l.lat ++ "," ++ toString l.lng ++ "]:" ++ version] := by
  have hlp : locProducer env (queryOf city country) st =
      (.ok (.loc l), st, [.place (queryOf city country)], []) := by
    unfold locProducer
    rw [hplace]
    rfl
  have hw1 := wrap_miss_ok hloc hlp
  have htzlk2 : lookupCache ((locationKey (queryOf city country) version, CVal.loc l) :: st)
      (tzKey l version) = none := by
    rw [lookupCache_cons_of_ne _ _ (locationKey_ne_tzKey _ _ _ _)]
    exact htzlk
  have htp : tzProducer env (momentUtcOfInput date) l
      ((locationKey (queryOf city country) version, CVal.loc l) :: st) =
      (.ok (.res (buildResolved (env.zoneOfs tzId) (momentUtcOfInput date) tzId l)),
        (locationKey (queryOf city country) version, CVal.loc l) :: st,
        [.tzLookup l.lat l.lng], []) := by
    unfold tzProducer
    rw [htz]
  have hw2 := wrap_miss_ok htzlk2 htp
  have hop : outerProducer env version (queryOf city country) (momentUtcOfInput date) st =
      (.ok (.res (buildResolved (env.zoneOfs tzId) (momentUtcOfInput date) tzId l)),
        (tzKey l version, .res (buildResolved (env.zoneOfs tzId) (momentUtcOfInput date) tzId l)) ::
          (locationKey (queryOf city country) version, CVal.loc l) :: st,
        [.place (queryOf city country), .tzLookup l.lat l.lng],
        [locationKey (queryOf city country) version, tzKey l version]) := by
    simp only [outerProducer, hw1, locDeferOf, getLatLng, hw2]
    rfl
  have hw3 := wrap_miss_ok houter hop
  have hrun : (match convertLocalToUtc env version st date city country with
      | .ok ro => ro.accessed
      | .error _ => []) =
      [outerKey (momentUtcOfInput date) (queryOf city country) version,
       locationKey (queryOf city country) version, tzKey l version] := by
    simp [convertLocalToUtc, hvalid, hw3]
  rw [hrun]
  rfl

theorem C7_cache_key_formats_witness :
    (match convertLocalToUtc demoEnv "1.32" [] (.strVal "2023-03-15T10:00") "Mumbai" "India" with
     | .ok ro => ro.accessed
     | .error _ => []) =
      ["localToUtc:" ++ jsDateToString (momentUtcOfInput (.strVal "2023-03-15T10:00")) ++ ":" ++
         queryOf "Mumbai" "India" ++ ":" ++ "1.32",
       "location:" ++ queryOf "Mumbai" "India" ++ ":" ++ "1.32",
       "utc:[" ++ toString (42 : Int) ++ "," ++ toString (23 : Int) ++ "]:" ++ "1.32"] :=
  C7_cache_key_formats demoEnv "1.32" [] (.strVal "2023-03-15T10:00") "Mumbai" "India"
    ⟨42, 23⟩ [] "OK" "\x7b\x22timezoneId\x22:\x22Asia/Kolkata\x22\x7d" "Asia/Kolkata"
    (by decide) rfl rfl rfl rfl rfl

/-- On any call that passes validation, the first (outer) cache key
consulted is `outerKey` of the UTC-normalized date, the query and the
version — regardless of the environment or prior cache contents. -/
theorem convert_accessed_head (env : Env) (version : String) (st : CacheSt)
    (date : DateInput) (city country : String) (ro : RunOut)
    (hgood : jsValidDate date = true)
    (h : convertLocalToUtc env version st date city country = .ok ro) :
    ro.accessed.head? =
      some (outerKey (momentUtcOfInput date) (queryOf city country) version) := by
  simp only [convertLocalToUtc] at h
  rw [if_neg (by simp [hgood])] at h
  have h2 := Except.ok.inj h
  rw [← h2]
  exact wrap_accessed_head st _ _

/-- C8: the cache key is a pure function of `(normalized date, query,
version)`: whatever the environment or prior cache state, a run's outer key
is `outerKey (momentUtcParse d) query version`, and two textual date inputs
that UTC-normalize to the same instant produce the same key (the key's date
component is canonical and UTC-anchored). -/
theorem C8_cache_key_pure_and_canonical (env1 env2 : Env) (version : String)
    (st1 st2 : CacheSt) (d1 d2 : String) (city country : String) (ro1 ro2 : RunOut)
    (hv1 : jsValidDate (.strVal d1) = true) (hv2 : jsValidDate (.strVal d2) = true)
    (hnorm : momentUtcParse d1 = momentUtcParse d2)
    (hr1 : convertLocalToUtc env1 version st1 (.strVal d1) city country = .ok ro1)
    (hr2 : convertLocalToUtc env2 version st2 (.strVal d2) city country = .ok ro2) :
    ro1.accessed.head? =
      some (outerKey (momentUtcParse d1) (queryOf city country) version) ∧
    ro1.accessed.head? = ro2.accessed.head? := by
  have h1 := convert_accessed_head env1 version st1 (.strVal d1) city country ro1 hv1 hr1
  have h2 := convert_accessed_head env2 version st2 (.strVal d2) city country ro2 hv2 hr2
  refine ⟨h1, ?_⟩
  rw [h1, h2]
  simp only [momentUtcOfInput]
  rw [hnorm]

theorem C8_cache_key_pure_and_canonical_witness :
    ({ result := .error (.errObj "ECONNRESET")
     , state := []
     , net := [.place "Sofia"]
     , accessed :=
         ["localToUtc:Wed Mar 15 2023 10:00:00 GMT+0000 (Coordinated Universal Time):Sofia:1.32",
          "location:Sofia:1.32"] } : RunOut).accessed.head? =
      some (outerKey (momentUtcParse "2023-03-15 10:00") "Sofia" "1.32") :=
  (C8_cache_key_pure_and_canonical
    { placeResp := fun _ => .transport "ECONNRESET"
    , tzResp := fun _ => .payload (some "Europe/Sofia") "{}"
    , zoneOfs := fun _ => fun _ => 120 }
    { placeResp := fun _ => .transport "ECONNRESET"
    , tzResp := fun _ => .payload (some "Europe/Sofia") "{}"
    , zoneOfs := fun _ => fun _ => 120 }
    "1.32" [] [] "2023-03-15 10:00" "2023-03-15T10:00" "Sofia" ""
    { result := .error (.errObj "ECONNRESET")
    , state := []
    , net := [.place "Sofia"]
    , accessed :=
        ["localToUtc:Wed Mar 15 2023 10:00:00 GMT+0000 (Coordinated Universal Time):Sofia:1.32",
         "location:Sofia:1.32"] }
    { result := .error (.errObj "ECONNRESET")
    , state := []
    , net := [.place "Sofia"]
    , accessed :=
        ["localToUtc:Wed Mar 15 2023 10:00:00 GMT+0000 (Coordinated Universal Time):Sofia:1.32",
         "location:Sofia:1.32"] }
    (by decide) (by decide) (by decide) (by decide) (by decide)).1

end PluginUtilities
